import Mathlib

/-!
# Verification of the U-chat gateway-service core

Shallow embedding of the WebSocket gateway of this repository
(`gateway-service/src/{ws_handler,state,rate_limiter,connection}.rs`)
and proofs of the specified properties of its handshake, registries,
rate limiters and session loop.

Conventions of the embedding:
* header values are `List Char` (Rust `&str` viewed as a character sequence);
* `DashMap`s become association lists with unique keys
  (`lookupKey` / `setKey` / `removeKey` below);
* each `tokio::sync::broadcast` channel is a heap object identified by a
  numeric id (the identity of the `Sender`/`Arc`), with an explicit
  ring-buffer model of the broadcast semantics;
* wall-clock fields (`connected_at`, `last_activity`) and logging/metrics
  calls have no effect on any verified property and are omitted;
* the `governor` token buckets are modelled within a single refill window
  (no time passes during a test sequence): a bucket holds its remaining
  burst allowance, created on first use with `rate * burst_multiplier`
  tokens, one token consumed per admitted check, denial when empty.
-/

namespace UChat

/-! ## Association-list maps (model of `DashMap`) -/

/-- Lookup in an association list (model of `DashMap::get`). -/
def lookupKey {κ α : Type} [DecidableEq κ] : List (κ × α) → κ → Option α
  | [], _ => none
  | (k, v) :: rest, key => if k = key then some v else lookupKey rest key

/-- Insert or update a binding (model of `DashMap::insert` / `entry`). -/
def setKey {κ α : Type} [DecidableEq κ] : List (κ × α) → κ → α → List (κ × α)
  | [], key, v => [(key, v)]
  | (k, w) :: rest, key, v =>
    if k = key then (key, v) :: rest else (k, w) :: setKey rest key v

/-- Remove a binding (model of `DashMap::remove`). -/
def removeKey {κ α : Type} [DecidableEq κ] : List (κ × α) → κ → List (κ × α)
  | [], _ => []
  | (k, w) :: rest, key =>
    if k = key then removeKey rest key else (k, w) :: removeKey rest key


/-! ## Credential extraction
(`ws_handler.rs::extract_token_from_protocol`, lines 158–172) -/

/-- Embedding of `str::split(',')` on a character list: comma-separated parts, in order.
Mirrors Rust semantics: the result is always non-empty, `""` splits to
`[""]`, and a trailing comma yields a trailing empty part. -/
def splitComma : List Char → List (List Char)
  | [] => [[]]
  | c :: cs =>
    if c = ',' then [] :: splitComma cs
    else
      match splitComma cs with
      | [] => [[c]]
      | p :: ps => (c :: p) :: ps

/-- Embedding of `str::trim` restricted to the ASCII whitespace that can occur in a
header value: drop leading and trailing whitespace characters. -/
def trimChars (l : List Char) : List Char :=
  ((l.dropWhile Char.isWhitespace).reverse.dropWhile Char.isWhitespace).reverse

/-- ASCII lowercasing of one character, as used by
`str::eq_ignore_ascii_case` (only `A`–`Z` are folded). -/
def asciiLower (c : Char) : Char :=
  if 'A' ≤ c ∧ c ≤ 'Z' then Char.ofNat (c.toNat + 32) else c

/-- Embedding of `str::eq_ignore_ascii_case`. -/
def eqIgnoreAsciiCase (a b : List Char) : Bool :=
  a.map asciiLower == b.map asciiLower

/-- The `"bearer"` marker checked for in the protocol header. -/
def bearerChars : List Char := ['b', 'e', 'a', 'r', 'e', 'r']

/-- Embedding of `extract_token_from_protocol` (ws_handler.rs:158–172):
split the header on `','`, trim every part; if there are at least two
parts and the first equals `"bearer"` case-insensitively, return the
second; if there is exactly one part which is non-empty and is not
`"bearer"`, return it; otherwise return the empty string. -/
def extract_token_from_protocol (header : List Char) : List Char :=
  match (splitComma header).map trimChars with
  | p0 :: p1 :: _ => if eqIgnoreAsciiCase p0 bearerChars then p1 else []
  | [p0] => if !(eqIgnoreAsciiCase p0 bearerChars) && !p0.isEmpty then p0 else []
  | [] => []


/-! ## Rate limiter (`rate_limiter.rs`)

One `governor` token bucket per key, created on first use with
`rate * burst_multiplier` immediately available admissions
(`Quota::per_minute(rate).allow_burst(rate * burst_multiplier)` resp.
`Quota::per_second` for the message family).  Within a single refill
window the bucket admits while a token remains and denies once empty;
denial does not consume. -/

/-- Default config constants (rate_limiter.rs:18–28). -/
def IP_CONNECTIONS_PER_MINUTE : Nat := 60
def USER_CONNECTIONS_PER_MINUTE : Nat := 30
def MESSAGES_PER_SECOND : Nat := 50
def BURST_MULTIPLIER : Nat := 2

/-- Embedding of `RateLimitConfig` (rate_limiter.rs:47–52). -/
structure RateLimitConfig where
  ip_connections_per_minute : Nat
  user_connections_per_minute : Nat
  messages_per_second : Nat
  burst_multiplier : Nat
deriving DecidableEq

/-- Embedding of `RateLimitConfig::default` (rate_limiter.rs:54–63). -/
def RateLimitConfig.default : RateLimitConfig :=
  ⟨IP_CONNECTIONS_PER_MINUTE, USER_CONNECTIONS_PER_MINUTE,
   MESSAGES_PER_SECOND, BURST_MULTIPLIER⟩

/-- Embedding of `RateLimiter` (rate_limiter.rs:31–43): three independent key→bucket
maps.  A bucket is its remaining burst allowance within the current
window.  IP addresses are modelled as strings (only equality is used). -/
structure RateLimiter where
  ip_limiters : List (String × Nat)
  user_limiters : List (String × Nat)
  message_limiters : List (String × Nat)
  config : RateLimitConfig
deriving DecidableEq

/-- Embedding of `RateLimiter::with_config` (rate_limiter.rs:95–109): empty maps. -/
def RateLimiter.with_config (config : RateLimitConfig) : RateLimiter :=
  ⟨[], [], [], config⟩

/-- One admission check against one bucket map: fetch the bucket (a fresh
bucket holds `capacity` tokens), deny if empty, otherwise admit and
consume one token.  Shared body of `check_ip` / `check_user` /
`check_message` (rate_limiter.rs:112–196). -/
def bucketCheck (m : List (String × Nat)) (key : String) (capacity : Nat) :
    Bool × List (String × Nat) :=
  let remaining := (lookupKey m key).getD capacity
  if remaining = 0 then (false, setKey m key 0)
  else (true, setKey m key (remaining - 1))

/-- Embedding of `RateLimiter::check_ip` (rate_limiter.rs:112–138). -/
def RateLimiter.check_ip (rl : RateLimiter) (ip : String) : Bool × RateLimiter :=
  let r := bucketCheck rl.ip_limiters ip
    (rl.config.ip_connections_per_minute * rl.config.burst_multiplier)
  (r.1, { rl with ip_limiters := r.2 })

/-- Embedding of `RateLimiter::check_user` (rate_limiter.rs:141–167). -/
def RateLimiter.check_user (rl : RateLimiter) (user_id : String) : Bool × RateLimiter :=
  let r := bucketCheck rl.user_limiters user_id
    (rl.config.user_connections_per_minute * rl.config.burst_multiplier)
  (r.1, { rl with user_limiters := r.2 })

/-- Embedding of `RateLimiter::check_message` (rate_limiter.rs:170–196). -/
def RateLimiter.check_message (rl : RateLimiter) (connection_id : String) :
    Bool × RateLimiter :=
  let r := bucketCheck rl.message_limiters connection_id
    (rl.config.messages_per_second * rl.config.burst_multiplier)
  (r.1, { rl with message_limiters := r.2 })

/-- Embedding of `RateLimiter::remove_connection` (rate_limiter.rs:199–201). -/
def RateLimiter.remove_connection (rl : RateLimiter) (connection_id : String) :
    RateLimiter :=
  { rl with message_limiters := removeKey rl.message_limiters connection_id }

/-! ### Iterated admission checks (for the exact-admission-count property) -/

/-- Runs `n` successive admission checks of one key against one bucket map;
returns the list of verdicts in order and the final map. -/
def repeatBucketCheck (m : List (String × Nat)) (key : String) (capacity : Nat) :
    Nat → List Bool × List (String × Nat)
  | 0 => ([], m)
  | n + 1 =>
    let r := bucketCheck m key capacity
    let rest := repeatBucketCheck r.2 key capacity n
    (r.1 :: rest.1, rest.2)

/-- Runs `n` successive `check_ip` calls for one address. -/
def repeatCheckIp (rl : RateLimiter) (ip : String) : Nat → List Bool × RateLimiter
  | 0 => ([], rl)
  | n + 1 =>
    let r := rl.check_ip ip
    let rest := repeatCheckIp r.2 ip n
    (r.1 :: rest.1, rest.2)

/-- Runs `n` successive `check_user` calls for one user. -/
def repeatCheckUser (rl : RateLimiter) (user_id : String) : Nat → List Bool × RateLimiter
  | 0 => ([], rl)
  | n + 1 =>
    let r := rl.check_user user_id
    let rest := repeatCheckUser r.2 user_id n
    (r.1 :: rest.1, rest.2)

/-- Runs `n` successive `check_message` calls for one connection. -/
def repeatCheckMessage (rl : RateLimiter) (cid : String) : Nat → List Bool × RateLimiter
  | 0 => ([], rl)
  | n + 1 =>
    let r := rl.check_message cid
    let rest := repeatCheckMessage r.2 cid n
    (r.1 :: rest.1, rest.2)


/-! ## Connection metadata (`connection.rs`) -/

/-- Embedding of `ConnectionState` (connection.rs:56–65). -/
inductive ConnectionState where
  | Connecting
  | Active
  | Closing
  | Closed
deriving DecidableEq

/-- Embedding of `ConnectionInfo` (connection.rs:16–52).  The two wall-clock
timestamps (`connected_at`, `last_activity`) are outside the model; all
other fields are kept.  IP addresses are modelled as strings. -/
structure ConnectionInfo where
  id : String
  user_id : String
  device_id : Option String
  room_id : String
  display_name : Option String
  ip_address : Option String
  user_agent : Option String
  messages_sent : Nat
  messages_received : Nat
  state : ConnectionState
deriving DecidableEq

/-- Embedding of `ConnectionInfo::new` (connection.rs:69–90): fresh metadata, zero
counters, state `Active`. -/
def ConnectionInfo.new (id user_id room_id : String)
    (ip_address : Option String) : ConnectionInfo :=
  { id := id, user_id := user_id, device_id := none, room_id := room_id,
    display_name := none, ip_address := ip_address, user_agent := none,
    messages_sent := 0, messages_received := 0,
    state := ConnectionState.Active }

/-- Embedding of `ConnectionInfo::with_user_agent` (connection.rs:105–108). -/
def ConnectionInfo.with_user_agent (c : ConnectionInfo) (ua : String) :
    ConnectionInfo :=
  { c with user_agent := some ua }

/-- Embedding of `ConnectionInfo::touch` (connection.rs:111–113) refreshes
`last_activity`, a wall-clock field outside the model; it changes no
modelled field. -/
def ConnectionInfo.touch (c : ConnectionInfo) : ConnectionInfo := c

/-- Embedding of `ConnectionInfo::increment_sent` (connection.rs:116–119). -/
def ConnectionInfo.increment_sent (c : ConnectionInfo) : ConnectionInfo :=
  { c with messages_sent := c.messages_sent + 1 }

/-- Embedding of `ConnectionInfo::increment_received` (connection.rs:122–125). -/
def ConnectionInfo.increment_received (c : ConnectionInfo) : ConnectionInfo :=
  { c with messages_received := c.messages_received + 1 }

/-- Embedding of `ConnectionInfo::set_state` (connection.rs:128–130). -/
def ConnectionInfo.set_state (c : ConnectionInfo) (s : ConnectionState) :
    ConnectionInfo :=
  { c with state := s }

/-! ## Broadcast channels (`tokio::sync::broadcast`)

A channel is a ring buffer of the last `capacity` sent values.  We keep
the full send history; a receiver is a read position into that history.
`send` never blocks; a receiver more than `capacity` behind has missed
the overwritten values and its next `recv` reports `Lagged`, after which
it is repositioned to the oldest retained value.  Channel objects live in
a heap (`AppState.channels`) and are identified by a numeric id, which
models the identity of the shared `Sender`. -/

structure BChannel where
  capacity : Nat
  /-- All values ever sent, oldest first. -/
  history : List String
  /-- Number of live receivers (`Sender::receiver_count`). -/
  receiverCount : Nat
deriving DecidableEq

inductive RecvResult where
  /-- A value was received; the receiver advances to `newPos`. -/
  | ok (msg : String) (newPos : Nat)
  /-- Case `Err(RecvError::Lagged)`: the receiver fell more than `capacity`
  behind and is repositioned to `newPos`, the oldest retained value. -/
  | lagged (newPos : Nat)
  /-- No value available: `recv().await` would suspend. -/
  | pending
deriving DecidableEq

/-- Model of `Receiver::recv` for a receiver at read position `pos`. -/
def BChannel.recv (c : BChannel) (pos : Nat) : RecvResult :=
  if c.history.length ≤ pos then .pending
  else if c.capacity < c.history.length - pos then
    .lagged (c.history.length - c.capacity)
  else .ok (c.history.getD pos "") (pos + 1)

/-- Model of `Sender::send`: append to the history if at least one receiver
exists, otherwise the value is dropped and `Err(SendError)` returned.
Never blocks; a slow receiver only loses its own oldest backlog. -/
def BChannel.send (c : BChannel) (msg : String) : BChannel × Bool :=
  if c.receiverCount = 0 then (c, false)
  else ({ c with history := c.history ++ [msg] }, true)

/-! ## Application state (`state.rs`) -/

/-- Embedding of `CHANNEL_CAPACITY` (state.rs:25). -/
def CHANNEL_CAPACITY : Nat := 100

/-- Embedding of `AppState` (state.rs:29–49): the rooms map holds, per room id, the id
of its broadcast channel; `channels` is the heap of channel objects;
`nextChannel` allocates fresh channel identities.  The JWT
`token_service` is an external collaborator and is passed separately to
the handler as a validation function; `started_at` is wall-clock. -/
structure AppState where
  rooms : List (String × Nat)
  channels : List (Nat × BChannel)
  nextChannel : Nat
  connections : List (String × ConnectionInfo)
  allowed_origins : List String
deriving DecidableEq

/-- Embedding of `AppState::is_origin_allowed` (state.rs:83–89). -/
def AppState.is_origin_allowed (s : AppState) (origin : String) : Bool :=
  if s.allowed_origins.isEmpty then true
  else s.allowed_origins.any (fun o => o = origin)

/-- Embedding of `AppState::get_or_create_room` (state.rs:92–101): atomically look the
room up and create its broadcast channel (capacity `CHANNEL_CAPACITY`)
if absent; return the channel handle. -/
def AppState.get_or_create_room (s : AppState) (room_id : String) :
    Nat × AppState :=
  match lookupKey s.rooms room_id with
  | some ch => (ch, s)
  | none =>
    (s.nextChannel,
     { s with
        rooms := setKey s.rooms room_id s.nextChannel,
        channels := setKey s.channels s.nextChannel
          ⟨CHANNEL_CAPACITY, [], 0⟩,
        nextChannel := s.nextChannel + 1 })

/-- Embedding of `AppState::register_connection` (state.rs:104–109). -/
def AppState.register_connection (s : AppState) (info : ConnectionInfo) :
    AppState :=
  { s with connections := setKey s.connections info.id info }

/-- Embedding of `AppState::unregister_connection` (state.rs:112–119): remove and
return the entry, `none` if absent. -/
def AppState.unregister_connection (s : AppState) (connection_id : String) :
    Option ConnectionInfo × AppState :=
  match lookupKey s.connections connection_id with
  | some info =>
    (some info, { s with connections := removeKey s.connections connection_id })
  | none => (none, s)

/-- Embedding of `AppState::update_connection` (state.rs:122–129): apply `f` to the
entry if present, otherwise do nothing. -/
def AppState.update_connection (s : AppState) (connection_id : String)
    (f : ConnectionInfo → ConnectionInfo) : AppState :=
  match lookupKey s.connections connection_id with
  | some info =>
    { s with connections := setKey s.connections connection_id (f info) }
  | none => s

/-- Subscribe to the channel with id `ch` (`Sender::subscribe`): one more
receiver, positioned at the current end of the history. -/
def AppState.channelSubscribe (s : AppState) (ch : Nat) : AppState × Nat :=
  match lookupKey s.channels ch with
  | some c =>
    ({ s with channels :=
        setKey s.channels ch { c with receiverCount := c.receiverCount + 1 } },
     c.history.length)
  | none => (s, 0)

/-- Drop one receiver of channel `ch` (receiver handle goes out of scope,
e.g. when the forward task is aborted). -/
def AppState.channelDropReceiver (s : AppState) (ch : Nat) : AppState :=
  match lookupKey s.channels ch with
  | some c =>
    { s with channels :=
        setKey s.channels ch { c with receiverCount := c.receiverCount - 1 } }
  | none => s

/-- Model of `Sender::receiver_count` of channel `ch`. -/
def AppState.channelReceiverCount (s : AppState) (ch : Nat) : Nat :=
  match lookupKey s.channels ch with
  | some c => c.receiverCount
  | none => 0

/-- Model of `Sender::send` on channel `ch` (used by the inbound loop to
broadcast a payload to the room). -/
def AppState.channelSend (s : AppState) (ch : Nat) (msg : String) : AppState :=
  match lookupKey s.channels ch with
  | some c => { s with channels := setKey s.channels ch (c.send msg).1 }
  | none => s

/-! ## Handshake (`ws_handler.rs::ws_handler`, lines 45–151)

The Token Validator is an external collaborator (jwt-common's
`TokenService::validate`); per its interface contract it returns, for a
valid credential, claims carrying the subject and the derived room id.
It enters the embedding as the function parameter `validate`.  The
connection id produced by `generate_connection_id` (a process-global
counter plus a timestamp) likewise enters as a parameter. -/

/-- Claims returned by the Token Validator: subject and derived room id
(`claims.sub`, `claims.room_id()`). -/
structure Claims where
  sub : String
  roomId : String
deriving DecidableEq

/-- The distinct responses of `ws_handler`, one per `return` site. -/
inductive WsResponse where
  /-- Status 429, "Rate limit exceeded" (address family denied). -/
  | tooManyRequests
  /-- Status 403, "Origin not allowed". -/
  | originNotAllowed
  /-- Status 403, "Missing authentication token". -/
  | missingToken
  /-- Status 403, "Invalid or expired token". -/
  | invalidToken
  /-- Status 429, "Rate limit exceeded for user". -/
  | tooManyRequestsUser
  /-- Status 101: upgrade completed (sub-protocol `"bearer"` acknowledged),
  session started for this connection, room and channel. -/
  | upgraded (connection_id room_id : String) (channel : Nat)
deriving DecidableEq

/-- HTTP status of each response
(`StatusCode::TOO_MANY_REQUESTS` = 429, `FORBIDDEN` = 403,
`SWITCHING_PROTOCOLS` = 101). -/
def WsResponse.status : WsResponse → Nat
  | .tooManyRequests => 429
  | .originNotAllowed => 403
  | .missingToken => 403
  | .invalidToken => 403
  | .tooManyRequestsUser => 429
  | .upgraded _ _ _ => 101

/-- Whether the handshake completed the upgrade. -/
def WsResponse.isUpgrade : WsResponse → Bool
  | .upgraded _ _ _ => true
  | _ => false

/-- The inputs of one upgrade request: caller address, optional `Origin`
header, the `Sec-WebSocket-Protocol` value (empty list when the header is
absent, matching `unwrap_or("")`), optional `User-Agent`. -/
structure WsRequest where
  ip : String
  origin : Option String
  protocol_header : List Char
  user_agent : Option String
deriving DecidableEq

/-- Embedding of `ws_handler` (ws_handler.rs:45–151): the check sequence
address rate limit → origin → credential extraction → token validation →
user rate limit, then room lookup/creation and connection registration,
each failing check returning its response at once. -/
def ws_handler (validate : List Char → Option Claims) (connection_id : String)
    (s : AppState) (rl : RateLimiter) (req : WsRequest) :
    WsResponse × AppState × RateLimiter :=
  let c1 := rl.check_ip req.ip
  if c1.1 = false then (.tooManyRequests, s, c1.2)
  else
    let originRejected :=
      match req.origin with
      | some o => !(s.is_origin_allowed o)
      | none => false
    if originRejected then (.originNotAllowed, s, c1.2)
    else
      let token := extract_token_from_protocol req.protocol_header
      if token.isEmpty then (.missingToken, s, c1.2)
      else
        match validate token with
        | none => (.invalidToken, s, c1.2)
        | some claims =>
          let c2 := c1.2.check_user claims.sub
          if c2.1 = false then (.tooManyRequestsUser, s, c2.2)
          else
            let room_id := claims.roomId
            let r := s.get_or_create_room room_id
            let conn_info := (ConnectionInfo.new connection_id claims.sub
              room_id (some req.ip)).with_user_agent (req.user_agent.getD "")
            let s2 := r.2.register_connection conn_info
            (.upgraded connection_id room_id r.1, s2, c2.2)

/-! ## Duplex session (`ws_handler.rs::handle_socket`, lines 182–334) -/

/-- One inbound item of the session's receive stream
(`ws_receiver.next()`): a frame, or a read error. -/
inductive InEvent where
  | text (msg : String)
  | binary (data : List Nat)
  | ping
  | pong
  | close
  | readError
deriving DecidableEq

/-- One output digit of `hex_encode` (ws_handler.rs:337–339). -/
def hexDigit (n : Nat) : Char :=
  if n < 10 then Char.ofNat (48 + n) else Char.ofNat (87 + n)

/-- Embedding of `hex_encode` (ws_handler.rs:337–339): two lowercase hex digits per
byte. -/
def hex_encode (data : List Nat) : String :=
  String.mk ((data.map (fun b => [hexDigit (b / 16 % 16), hexDigit (b % 16)])).flatten)

/-- The JSON wrapper broadcast for a binary frame (ws_handler.rs:268). -/
def binaryPayload (data : List Nat) : String :=
  "\x7b\"type\":\"binary\",\"data\":\"" ++ hex_encode data ++ "\"\x7d"

/-- Outcome of processing one inbound item: continue the loop with the
new shared state, or leave it (close frame / read error). -/
inductive StepResult where
  | next (s : AppState) (rl : RateLimiter)
  | halted (s : AppState) (rl : RateLimiter)
deriving DecidableEq

/-- One iteration of the inbound loop of `handle_socket`
(ws_handler.rs:228–301); `sender` is the room channel handle, `cid` the
connection id.  A text/binary payload is admitted by the
connection-keyed limiter or silently dropped; admitted payloads bump the
sent counter and are broadcast to the room; ping is ignored; pong only
touches `last_activity`; a close frame or read error leaves the loop. -/
def handle_socket_step (sender : Nat) (cid : String) (s : AppState)
    (rl : RateLimiter) : InEvent → StepResult
  | .text msg =>
    let c := rl.check_message cid
    if c.1 = false then .next s c.2
    else
      let s1 := s.update_connection cid ConnectionInfo.increment_sent
      let s2 := s1.channelSend sender msg
      .next s2 c.2
  | .binary data =>
    let c := rl.check_message cid
    if c.1 = false then .next s c.2
    else
      let s1 := s.update_connection cid ConnectionInfo.increment_sent
      let s2 := s1.channelSend sender (binaryPayload data)
      .next s2 c.2
  | .ping => .next s rl
  | .pong => .next (s.update_connection cid ConnectionInfo.touch) rl
  | .close => .halted s rl
  | .readError => .halted s rl

/-- The inbound loop: process items until a close frame, a read error,
or the end of the stream. -/
def handle_socket_loop (sender : Nat) (cid : String) :
    AppState → RateLimiter → List InEvent → AppState × RateLimiter
  | s, rl, [] => (s, rl)
  | s, rl, e :: es =>
    match handle_socket_step sender cid s rl e with
    | .next s' rl' => handle_socket_loop sender cid s' rl' es
    | .halted s' rl' => (s', rl')

/-- The cleanup block of `handle_socket` (ws_handler.rs:303–333), run
once after the loop exits, whatever the cause: abort the forward task
(dropping its room subscription), mark the connection `Closed` (the only
`set_state` call in the service — its argument is recorded in the
returned write trace), unregister it, drop its message-rate bucket, and
remove the room if no subscriber remains. -/
def handle_socket_cleanup (sender : Nat) (cid room_id : String)
    (s : AppState) (rl : RateLimiter) :
    AppState × RateLimiter × Option ConnectionInfo × List ConnectionState :=
  let s0 := s.channelDropReceiver sender
  let s1 := s0.update_connection cid (fun c => c.set_state ConnectionState.Closed)
  let r := s1.unregister_connection cid
  let rl1 := rl.remove_connection cid
  let s3 :=
    if r.2.channelReceiverCount sender = 0 then
      { r.2 with rooms := removeKey r.2.rooms room_id }
    else r.2
  (s3, rl1, r.1, [ConnectionState.Closed])

/-- Embedding of `handle_socket` (ws_handler.rs:182–334): subscribe to the room
channel, run the inbound loop over the connection's event stream, then
clean up.  Besides the final shared state it returns the
`ConnectionInfo` removed from the registry and the trace of states
written through `set_state` during the whole session.  (The concurrent
forward task only forwards broadcasts to the socket and bumps the
received counter; it is modelled by `forward_loop` below.) -/
def handle_socket (sender : Nat) (cid room_id : String) (s : AppState)
    (rl : RateLimiter) (events : List InEvent) :
    AppState × RateLimiter × Option ConnectionInfo × List ConnectionState :=
  let sub := s.channelSubscribe sender
  let r := handle_socket_loop sender cid sub.1 rl events
  handle_socket_cleanup sender cid room_id r.1 r.2

/-- The forward task (ws_handler.rs:208–225): receive from the room
subscription while it yields `Ok`, writing each value to the socket —
`sendOk` telling whether the socket write succeeds — and stop on a
failed write.  An `Err` from `recv` (`Lagged` or `Closed`) does not
match `Ok` and leaves the `while let` loop.  Returns the values
delivered to the socket, from read position `pos`. -/
def forward_loop (c : BChannel) (sendOk : String → Bool) (pos : Nat) :
    List String :=
  match h : c.recv pos with
  | .ok msg p => if sendOk msg then msg :: forward_loop c sendOk p else []
  | .lagged _ => []
  | .pending => []
termination_by c.history.length - pos
decreasing_by
  simp only [BChannel.recv] at h
  split at h
  · exact absurd h (by simp)
  · split at h
    · exact absurd h (by simp)
    · rename_i h1 h2
      have hp : p = pos + 1 := by
        cases h
        rfl
      omega

/-! ## Fixtures and iteration helpers used by the theorems -/

/-- Runs `n` successive `get_or_create_room` calls for one room id (each
caller keeping the returned handle), in some linearization order; the
`DashMap::entry` used by the source makes each call atomic. -/
def iterateGetOrCreate (s : AppState) (room_id : String) :
    Nat → List Nat × AppState
  | 0 => ([], s)
  | n + 1 =>
    let r := s.get_or_create_room room_id
    let rest := iterateGetOrCreate r.2 room_id n
    (r.1 :: rest.1, rest.2)

/-- Fixture: a fresh gateway state allowing only `https://example.com`. -/
def sampleState : AppState := ⟨[], [], 0, [], ["https://example.com"]⟩

/-- Fixture: a limiter configured for 2 admissions, burst multiplier 1. -/
def sampleLimiter : RateLimiter := RateLimiter.with_config ⟨2, 2, 2, 1⟩

/-- Fixture: a validator that rejects every credential. -/
def noValidate : List Char → Option Claims := fun _ => none

/-- Fixture: a validator accepting exactly the credential `"tok"` for
subject `"alice"` in room `"r"`. -/
def sampleValidate : List Char → Option Claims := fun t =>
  if t = "tok".data then some ⟨"alice", "r"⟩ else none

/-- Fixture: a limiter state whose message bucket for connection `"c1"`
is exhausted. -/
def exhaustedLimiter : RateLimiter := ⟨[], [], [("c1", 0)], ⟨2, 2, 2, 1⟩⟩

/-- Fixture: one active connection `"c1"` of user `"alice"` in room
`"r"`, whose channel (id 0) has no other subscriber. -/
def sessionState : AppState :=
  ⟨[("r", 0)], [(0, ⟨100, [], 0⟩)], 1,
   [("c1", ConnectionInfo.new "c1" "alice" "r" none)], []⟩

/-- Fixture: a room channel of capacity 2 into which three values were
published while its one subscriber (still at read position 0) read
nothing, so the subscriber's backlog exceeded the capacity. -/
def laggedChannel : BChannel := ⟨2, ["m1", "m2", "m3"], 1⟩


/-! # Theorems -/

theorem lookupKey_setKey_same {κ α : Type} [DecidableEq κ]
    (m : List (κ × α)) (k : κ) (v : α) : lookupKey (setKey m k v) k = some v := by
  induction m with
  | nil => simp [setKey, lookupKey]
  | cons hd tl ih =>
    obtain ⟨k', w⟩ := hd
    by_cases h : k' = k <;> simp [setKey, lookupKey, h, ih]

theorem lookupKey_setKey_other {κ α : Type} [DecidableEq κ]
    (m : List (κ × α)) (k k' : κ) (v : α) (hne : k ≠ k') :
    lookupKey (setKey m k v) k' = lookupKey m k' := by
  induction m with
  | nil => simp [setKey, lookupKey, hne]
  | cons hd tl ih =>
    obtain ⟨k0, w⟩ := hd
    by_cases h : k0 = k
    · subst h; simp [setKey, lookupKey, hne]
    · simp [setKey, h, lookupKey, ih]

theorem lookupKey_removeKey_same {κ α : Type} [DecidableEq κ]
    (m : List (κ × α)) (k : κ) : lookupKey (removeKey m k) k = none := by
  induction m with
  | nil => simp [removeKey, lookupKey]
  | cons hd tl ih =>
    obtain ⟨k', w⟩ := hd
    by_cases h : k' = k <;> simp [removeKey, lookupKey, h, ih]

theorem removeKey_of_lookup_none {κ α : Type} [DecidableEq κ]
    (m : List (κ × α)) (k : κ) (h : lookupKey m k = none) : removeKey m k = m := by
  induction m with
  | nil => simp [removeKey]
  | cons hd tl ih =>
    obtain ⟨k', w⟩ := hd
    by_cases hk : k' = k
    · simp [lookupKey, hk] at h
    · simp [lookupKey, hk] at h
      simp [removeKey, hk, ih h]

theorem splitComma_ne_nil (l : List Char) : splitComma l ≠ [] := by
  cases l with
  | nil => simp [splitComma]
  | cons c cs =>
    simp only [splitComma]
    by_cases h : c = ','
    · simp [h]
    · simp only [h, if_false]
      cases splitComma cs <;> simp

theorem splitComma_append_of_no_comma (l1 cs : List Char) (h : ',' ∉ l1) :
    splitComma (l1 ++ cs) =
      (l1 ++ (splitComma cs).headI) :: (splitComma cs).tail := by
  induction l1 with
  | nil =>
    simp only [List.nil_append]
    have hne := splitComma_ne_nil cs
    cases hsc : splitComma cs with
    | nil => exact absurd hsc hne
    | cons p ps => simp [List.headI, List.tail]
  | cons c l1' ih =>
    have hc : c ≠ ',' := fun hc => h (by simp [hc])
    have h' : ',' ∉ l1' := fun hm => h (List.mem_cons_of_mem _ hm)
    simp only [List.cons_append, splitComma, hc, if_false]
    rw [show l1'.append cs = l1' ++ cs from rfl, ih h']

theorem splitComma_of_no_comma (l : List Char) (h : ',' ∉ l) :
    splitComma l = [l] := by
  have := splitComma_append_of_no_comma l [] h
  simpa [splitComma] using this

example : extract_token_from_protocol "bearer, abc123".data = "abc123".data := by decide
example : extract_token_from_protocol "abc123".data = "abc123".data := by decide
example : extract_token_from_protocol "".data = [] := by decide
example : extract_token_from_protocol "bearer".data = [] := by decide
example : extract_token_from_protocol "BeArEr, tok".data = "tok".data := by decide

/-- C1: the credential parser returns, for a comma-separated pair whose
first trimmed part is the bearer marker, the (trimmed) second part; for a
bare token that is not the bearer marker, the token itself; and for the
empty header or the bare word `"bearer"`, the empty string — and any
request whose extracted credential is empty is then rejected by the
handshake as a missing token.  Holds for every header string of those
shapes. -/
theorem extract_token_from_protocol_spec :
    (∀ pre t : List Char, ',' ∉ pre → ',' ∉ t →
        eqIgnoreAsciiCase (trimChars pre) bearerChars = true →
        extract_token_from_protocol (pre ++ ',' :: t) = trimChars t) ∧
    (∀ t : List Char, ',' ∉ t → trimChars t ≠ [] →
        eqIgnoreAsciiCase (trimChars t) bearerChars = false →
        extract_token_from_protocol t = trimChars t) ∧
    (extract_token_from_protocol [] = [] ∧
     extract_token_from_protocol bearerChars = []) ∧
    (∀ (v : List Char → Option Claims) (cid : String) (s : AppState)
        (rl : RateLimiter) (req : WsRequest),
        (rl.check_ip req.ip).1 = true →
        (match req.origin with
         | some o => s.is_origin_allowed o
         | none => true) = true →
        extract_token_from_protocol req.protocol_header = [] →
        (ws_handler v cid s rl req).1 = .missingToken) := by
  refine ⟨?_, ?_, ⟨by decide, by decide⟩, ?_⟩
  · intro pre t hpre ht hbear
    have h2 : splitComma (',' :: t) = [[], t] := by
      simp [splitComma, splitComma_of_no_comma t ht]
    have h1 := splitComma_append_of_no_comma pre (',' :: t) hpre
    rw [h2] at h1
    simp only [List.headI, List.tail, List.append_nil] at h1
    unfold extract_token_from_protocol
    rw [h1]
    simp [hbear]
  · intro t ht hne hbear
    unfold extract_token_from_protocol
    rw [splitComma_of_no_comma t ht]
    simp [hbear, hne]
  · intro v cid s rl req hip hor htok
    have horj : (match req.origin with
        | some o => !(s.is_origin_allowed o)
        | none => false) = false := by
      cases ho : req.origin with
      | none => rfl
      | some o =>
        rw [ho] at hor
        simpa using hor
    simp [ws_handler, hip, horj, htok]

/-- Witness for C1 at the spec's concrete header values. -/
theorem extract_token_from_protocol_spec_witness :
    extract_token_from_protocol "bearer, abc123".data = "abc123".data ∧
    extract_token_from_protocol "abc123".data = "abc123".data ∧
    (ws_handler noValidate "c1" sampleState sampleLimiter
        ⟨"9.9.9.9", none, bearerChars, none⟩).1 = WsResponse.missingToken := by
  refine ⟨?_, ?_, ?_⟩
  · have h := extract_token_from_protocol_spec.1 "bearer".data " abc123".data
      (by decide) (by decide) (by decide)
    have he : "bearer".data ++ ',' :: " abc123".data = "bearer, abc123".data := by decide
    have htr : trimChars " abc123".data = "abc123".data := by decide
    rw [he, htr] at h
    exact h
  · have h := extract_token_from_protocol_spec.2.1 "abc123".data
      (by decide) (by decide) (by decide)
    have htr : trimChars "abc123".data = "abc123".data := by decide
    rw [htr] at h
    exact h
  · exact extract_token_from_protocol_spec.2.2.2 noValidate "c1" sampleState
      sampleLimiter ⟨"9.9.9.9", none, bearerChars, none⟩
      (by decide) (by decide) (by decide)

theorem setKey_setKey_same {κ α : Type} [DecidableEq κ]
    (m : List (κ × α)) (k : κ) (a b : α) :
    setKey (setKey m k a) k b = setKey m k b := by
  induction m with
  | nil => simp [setKey]
  | cons hd tl ih =>
    obtain ⟨k0, w⟩ := hd
    by_cases h : k0 = k <;> simp [setKey, h, ih]

theorem repeatBucketCheck_exhaust (key : String) (cap : Nat) :
    ∀ (r : Nat) (m : List (String × Nat)), lookupKey m key = some r →
      repeatBucketCheck m key cap (r + 1) =
        (List.replicate r true ++ [false], setKey m key 0) := by
  intro r
  induction r with
  | zero =>
    intro m hm
    simp [repeatBucketCheck, bucketCheck, hm]
  | succ r ih =>
    intro m hm
    have hstep : bucketCheck m key cap = (true, setKey m key r) := by
      simp [bucketCheck, hm]
    have hrec := ih (setKey m key r) (lookupKey_setKey_same m key r)
    have h1 : repeatBucketCheck m key cap (r + 1 + 1) =
        ((bucketCheck m key cap).1 ::
           (repeatBucketCheck (bucketCheck m key cap).2 key cap (r + 1)).1,
         (repeatBucketCheck (bucketCheck m key cap).2 key cap (r + 1)).2) := rfl
    rw [h1, hstep]
    show (true :: (repeatBucketCheck (setKey m key r) key cap (r + 1)).1,
          (repeatBucketCheck (setKey m key r) key cap (r + 1)).2) = _
    rw [hrec, setKey_setKey_same]
    simp [List.replicate_succ]

theorem repeatBucketCheck_fresh (key : String) (cap : Nat) (hcap : 0 < cap)
    (m : List (String × Nat)) (hm : lookupKey m key = none) :
    repeatBucketCheck m key cap (cap + 1) =
      (List.replicate cap true ++ [false], setKey m key 0) := by
  obtain ⟨c, rfl⟩ : ∃ c, cap = c + 1 := ⟨cap - 1, (Nat.succ_pred_eq_of_pos hcap).symm⟩
  have hstep : bucketCheck m key (c + 1) = (true, setKey m key c) := by
    simp [bucketCheck, hm]
  have hrec := repeatBucketCheck_exhaust key (c + 1) c (setKey m key c)
    (lookupKey_setKey_same m key c)
  have h1 : repeatBucketCheck m key (c + 1) (c + 1 + 1) =
      ((bucketCheck m key (c + 1)).1 ::
         (repeatBucketCheck (bucketCheck m key (c + 1)).2 key (c + 1) (c + 1)).1,
       (repeatBucketCheck (bucketCheck m key (c + 1)).2 key (c + 1) (c + 1)).2) := rfl
  rw [h1, hstep]
  show (true :: (repeatBucketCheck (setKey m key c) key (c + 1) (c + 1)).1,
        (repeatBucketCheck (setKey m key c) key (c + 1) (c + 1)).2) = _
  rw [hrec, setKey_setKey_same]
  simp [List.replicate_succ]

theorem bucketCheck_lookup_other (m : List (String × Nat)) (key other : String)
    (cap : Nat) (h : key ≠ other) :
    lookupKey (bucketCheck m key cap).2 other = lookupKey m other := by
  unfold bucketCheck
  by_cases h0 : (lookupKey m key).getD cap = 0 <;>
    simp [h0, lookupKey_setKey_other _ _ _ _ h]

theorem repeatBucketCheck_lookup_other (key other : String) (cap : Nat)
    (h : key ≠ other) :
    ∀ (n : Nat) (m : List (String × Nat)),
      lookupKey (repeatBucketCheck m key cap n).2 other = lookupKey m other := by
  intro n
  induction n with
  | zero => intro m; simp [repeatBucketCheck]
  | succ n ih =>
    intro m
    simp only [repeatBucketCheck]
    rw [ih, bucketCheck_lookup_other _ _ _ _ h]

theorem bucketCheck_congr_lookup (m m' : List (String × Nat)) (key : String)
    (cap : Nat) (h : lookupKey m key = lookupKey m' key) :
    (bucketCheck m key cap).1 = (bucketCheck m' key cap).1 := by
  unfold bucketCheck
  rw [h]
  by_cases h0 : (lookupKey m' key).getD cap = 0 <;> simp [h0]

theorem repeatCheckIp_eq (ip : String) :
    ∀ (n : Nat) (rl : RateLimiter),
      repeatCheckIp rl ip n =
        ((repeatBucketCheck rl.ip_limiters ip
            (rl.config.ip_connections_per_minute * rl.config.burst_multiplier) n).1,
         { rl with ip_limiters := (repeatBucketCheck rl.ip_limiters ip
            (rl.config.ip_connections_per_minute * rl.config.burst_multiplier) n).2 }) := by
  intro n
  induction n with
  | zero => intro rl; simp [repeatCheckIp, repeatBucketCheck]
  | succ n ih =>
    intro rl
    simp only [repeatCheckIp, RateLimiter.check_ip, ih, repeatBucketCheck]

theorem repeatCheckUser_eq (u : String) :
    ∀ (n : Nat) (rl : RateLimiter),
      repeatCheckUser rl u n =
        ((repeatBucketCheck rl.user_limiters u
            (rl.config.user_connections_per_minute * rl.config.burst_multiplier) n).1,
         { rl with user_limiters := (repeatBucketCheck rl.user_limiters u
            (rl.config.user_connections_per_minute * rl.config.burst_multiplier) n).2 }) := by
  intro n
  induction n with
  | zero => intro rl; simp [repeatCheckUser, repeatBucketCheck]
  | succ n ih =>
    intro rl
    simp only [repeatCheckUser, RateLimiter.check_user, ih, repeatBucketCheck]

theorem repeatCheckMessage_eq (cid : String) :
    ∀ (n : Nat) (rl : RateLimiter),
      repeatCheckMessage rl cid n =
        ((repeatBucketCheck rl.message_limiters cid
            (rl.config.messages_per_second * rl.config.burst_multiplier) n).1,
         { rl with message_limiters := (repeatBucketCheck rl.message_limiters cid
            (rl.config.messages_per_second * rl.config.burst_multiplier) n).2 }) := by
  intro n
  induction n with
  | zero => intro rl; simp [repeatCheckMessage, repeatBucketCheck]
  | succ n ih =>
    intro rl
    simp only [repeatCheckMessage, RateLimiter.check_message, ih, repeatBucketCheck]

theorem bucket_family_exact (N : Nat) (key other : String) (hN : 0 < N)
    (hko : key ≠ other) :
    (repeatBucketCheck [] key (N * 1) (N + 1)).1 = List.replicate N true ++ [false] ∧
    (bucketCheck (repeatBucketCheck [] key (N * 1) (N + 1)).2 other (N * 1)).1
      = (bucketCheck [] other (N * 1)).1 ∧
    (bucketCheck [] other (N * 1)).1 = true := by
  rw [Nat.mul_one]
  have hfresh := repeatBucketCheck_fresh key N hN [] rfl
  refine ⟨by rw [hfresh], ?_, ?_⟩
  · exact bucketCheck_congr_lookup _ _ _ _
      (repeatBucketCheck_lookup_other key other N hko (N + 1) [])
  · simp [bucketCheck, lookupKey, hN.ne']

/-- C4: a limiter family configured for `N` admissions per window with
burst multiplier 1 admits exactly the first `N` consecutive checks of a
key and denies the `(N+1)`-th, and an admission check for a distinct key
is unaffected by the exhaustion (here: gives the same verdict as on the
fresh limiter, namely admission) — for each of the address-, user- and
connection-keyed families. -/
theorem rate_limiter_exactly_N_admissions :
    ∀ (N : Nat) (key other : String), 0 < N → key ≠ other →
      ((repeatCheckIp (RateLimiter.with_config ⟨N, N, N, 1⟩) key (N + 1)).1
          = List.replicate N true ++ [false]
        ∧ ((repeatCheckIp (RateLimiter.with_config ⟨N, N, N, 1⟩) key (N + 1)).2.check_ip other).1
          = ((RateLimiter.with_config ⟨N, N, N, 1⟩).check_ip other).1
        ∧ ((RateLimiter.with_config ⟨N, N, N, 1⟩).check_ip other).1 = true) ∧
      ((repeatCheckUser (RateLimiter.with_config ⟨N, N, N, 1⟩) key (N + 1)).1
          = List.replicate N true ++ [false]
        ∧ ((repeatCheckUser (RateLimiter.with_config ⟨N, N, N, 1⟩) key (N + 1)).2.check_user other).1
          = ((RateLimiter.with_config ⟨N, N, N, 1⟩).check_user other).1
        ∧ ((RateLimiter.with_config ⟨N, N, N, 1⟩).check_user other).1 = true) ∧
      ((repeatCheckMessage (RateLimiter.with_config ⟨N, N, N, 1⟩) key (N + 1)).1
          = List.replicate N true ++ [false]
        ∧ ((repeatCheckMessage (RateLimiter.with_config ⟨N, N, N, 1⟩) key (N + 1)).2.check_message other).1
          = ((RateLimiter.with_config ⟨N, N, N, 1⟩).check_message other).1
        ∧ ((RateLimiter.with_config ⟨N, N, N, 1⟩).check_message other).1 = true) := by
  intro N key other hN hko
  have hfam := bucket_family_exact N key other hN hko
  refine ⟨⟨?_, ?_, ?_⟩, ⟨?_, ?_, ?_⟩, ⟨?_, ?_, ?_⟩⟩
  · rw [repeatCheckIp_eq]
    simpa [RateLimiter.with_config] using hfam.1
  · rw [repeatCheckIp_eq]
    simpa [RateLimiter.with_config, RateLimiter.check_ip] using hfam.2.1
  · simpa [RateLimiter.with_config, RateLimiter.check_ip] using hfam.2.2
  · rw [repeatCheckUser_eq]
    simpa [RateLimiter.with_config] using hfam.1
  · rw [repeatCheckUser_eq]
    simpa [RateLimiter.with_config, RateLimiter.check_user] using hfam.2.1
  · simpa [RateLimiter.with_config, RateLimiter.check_user] using hfam.2.2
  · rw [repeatCheckMessage_eq]
    simpa [RateLimiter.with_config] using hfam.1
  · rw [repeatCheckMessage_eq]
    simpa [RateLimiter.with_config, RateLimiter.check_message] using hfam.2.1
  · simpa [RateLimiter.with_config, RateLimiter.check_message] using hfam.2.2

/-- Witness for C4 at `N = 2`, keys `"k"` and `"j"`. -/
theorem rate_limiter_exactly_N_admissions_witness :
    ((repeatCheckIp (RateLimiter.with_config ⟨2, 2, 2, 1⟩) "k" (2 + 1)).1
        = [true, true, false]
      ∧ ((repeatCheckIp (RateLimiter.with_config ⟨2, 2, 2, 1⟩) "k" (2 + 1)).2.check_ip "j").1
        = true) ∧
    ((repeatCheckUser (RateLimiter.with_config ⟨2, 2, 2, 1⟩) "k" (2 + 1)).1
        = [true, true, false]
      ∧ ((repeatCheckUser (RateLimiter.with_config ⟨2, 2, 2, 1⟩) "k" (2 + 1)).2.check_user "j").1
        = true) ∧
    ((repeatCheckMessage (RateLimiter.with_config ⟨2, 2, 2, 1⟩) "k" (2 + 1)).1
        = [true, true, false]
      ∧ ((repeatCheckMessage (RateLimiter.with_config ⟨2, 2, 2, 1⟩) "k" (2 + 1)).2.check_message "j").1
        = true) := by
  have h := rate_limiter_exactly_N_admissions 2 "k" "j" (by decide) (by decide)
  refine ⟨⟨by rw [h.1.1]; decide, by rw [h.1.2.1]; exact h.1.2.2⟩,
          ⟨by rw [h.2.1.1]; decide, by rw [h.2.1.2.1]; exact h.2.1.2.2⟩,
          ⟨by rw [h.2.2.1]; decide, by rw [h.2.2.2.1]; exact h.2.2.2.2⟩⟩

/-! ### Room registry -/

theorem get_or_create_room_of_present (s : AppState) (rid : String) (ch : Nat)
    (h : lookupKey s.rooms rid = some ch) :
    s.get_or_create_room rid = (ch, s) := by
  simp [AppState.get_or_create_room, h]

theorem lookup_after_get_or_create (s : AppState) (rid : String) :
    lookupKey (s.get_or_create_room rid).2.rooms rid
      = some (s.get_or_create_room rid).1 := by
  unfold AppState.get_or_create_room
  cases h : lookupKey s.rooms rid with
  | some ch => simp [h]
  | none => simp [h, lookupKey_setKey_same]

theorem iterateGetOrCreate_of_present (rid : String) (ch : Nat) :
    ∀ (n : Nat) (s : AppState), lookupKey s.rooms rid = some ch →
      iterateGetOrCreate s rid n = (List.replicate n ch, s) := by
  intro n
  induction n with
  | zero => intro s h; simp [iterateGetOrCreate]
  | succ n ih =>
    intro s h
    simp only [iterateGetOrCreate, get_or_create_room_of_present s rid ch h,
      ih s h, List.replicate_succ]

/-- C8: for any state, any number of `get_or_create_room` calls for the
same room id (in their linearization order — the source's
`DashMap::entry` makes each call atomic) all return the channel handle
of the first call, and no call after the first changes the state: a
second call never creates a second channel while the first is still
registered, so at most one live channel exists per room id. -/
theorem room_single_channel_instance :
    ∀ (s : AppState) (rid : String) (n : Nat),
      (iterateGetOrCreate s rid (n + 1)).1
          = List.replicate (n + 1) (s.get_or_create_room rid).1 ∧
      (iterateGetOrCreate s rid (n + 1)).2 = (s.get_or_create_room rid).2 := by
  intro s rid n
  have hiter := iterateGetOrCreate_of_present rid (s.get_or_create_room rid).1 n
      (s.get_or_create_room rid).2 (lookup_after_get_or_create s rid)
  simp [iterateGetOrCreate, hiter, List.replicate_succ]

/-! ### Idempotent removal -/

/-- C9: removal operations are idempotent and non-fatal: unregistering
an absent connection id returns `none` and leaves the registry
unchanged; removing the rate-limit bucket of an absent connection id is
a no-op; and a second removal of the same entry is a no-op. -/
theorem removal_idempotent_no_op :
    ∀ (s : AppState) (rl : RateLimiter) (cid : String),
      (lookupKey s.connections cid = none →
        s.unregister_connection cid = (none, s)) ∧
      (s.unregister_connection cid).2.unregister_connection cid
          = (none, (s.unregister_connection cid).2) ∧
      (lookupKey rl.message_limiters cid = none →
        rl.remove_connection cid = rl) ∧
      (rl.remove_connection cid).remove_connection cid
          = rl.remove_connection cid := by
  intro s rl cid
  have habs : ∀ (s' : AppState), lookupKey s'.connections cid = none →
      s'.unregister_connection cid = (none, s') := by
    intro s' h
    simp [AppState.unregister_connection, h]
  refine ⟨habs s, ?_, ?_, ?_⟩
  · cases h : lookupKey s.connections cid with
    | none =>
      rw [habs s h]
      exact habs s h
    | some info =>
      have h2 : (s.unregister_connection cid).2
          = { s with connections := removeKey s.connections cid } := by
        simp [AppState.unregister_connection, h]
      rw [h2]
      exact habs _ (lookupKey_removeKey_same s.connections cid)
  · intro h
    simp [RateLimiter.remove_connection, removeKey_of_lookup_none _ _ h]
  · simp [RateLimiter.remove_connection,
      removeKey_of_lookup_none _ _ (lookupKey_removeKey_same rl.message_limiters cid)]

/-- Witness for C9: removing the absent id `"c9"` from an empty registry
and from a fresh limiter is a no-op. -/
theorem removal_idempotent_no_op_witness :
    AppState.unregister_connection ⟨[], [], 0, [], []⟩ "c9"
        = (none, (⟨[], [], 0, [], []⟩ : AppState)) ∧
    RateLimiter.remove_connection sampleLimiter "c9" = sampleLimiter := by
  have h := removal_idempotent_no_op ⟨[], [], 0, [], []⟩ sampleLimiter "c9"
  exact ⟨h.1 (by decide), h.2.2.1 (by decide)⟩

/-! ### Origin checking -/

/-- If the request carries no `Origin` header, or an allowed one, the
handshake is never rejected for its origin. -/
theorem ws_handler_not_origin_rejected
    (v : List Char → Option Claims) (cid : String) (s : AppState)
    (rl : RateLimiter) (req : WsRequest)
    (h : (match req.origin with
          | some o => s.is_origin_allowed o
          | none => true) = true) :
    (ws_handler v cid s rl req).1 ≠ .originNotAllowed := by
  have horj : (match req.origin with
      | some o => !(s.is_origin_allowed o)
      | none => false) = false := by
    cases ho : req.origin with
    | none => rfl
    | some o =>
      rw [ho] at h
      simpa using h
  simp only [ws_handler, horj, Bool.false_eq_true, if_false]
  split
  · simp
  · split
    · simp
    · split
      · simp
      · split
        · simp
        · simp

/-- C7: absence of the `Origin` header is tolerated (the handshake never
fails the origin check), while a present `Origin` that the allow-list
rejects makes the handshake return 403 "Origin not allowed" — before any
token validation (the outcome is the same for every validator) and
before any registration (the application state is untouched).  The
address admission precedes the origin check in the source, hence the
admission hypothesis. -/
theorem origin_check_handshake :
    (∀ (v : List Char → Option Claims) (cid : String) (s : AppState)
        (rl : RateLimiter) (req : WsRequest), req.origin = none →
        (ws_handler v cid s rl req).1 ≠ .originNotAllowed) ∧
    (∀ (v : List Char → Option Claims) (cid : String) (s : AppState)
        (rl : RateLimiter) (req : WsRequest) (o : String),
        req.origin = some o →
        s.is_origin_allowed o = false →
        (rl.check_ip req.ip).1 = true →
        (ws_handler v cid s rl req).1 = .originNotAllowed ∧
        ((ws_handler v cid s rl req).1).status = 403 ∧
        (ws_handler v cid s rl req).2.1 = s ∧
        (∀ v', ws_handler v' cid s rl req = ws_handler v cid s rl req)) := by
  constructor
  · intro v cid s rl req h0
    exact ws_handler_not_origin_rejected v cid s rl req (by rw [h0])
  · intro v cid s rl req o ho hall hip
    have key : ∀ (v0 : List Char → Option Claims),
        ws_handler v0 cid s rl req
          = (.originNotAllowed, s, (rl.check_ip req.ip).2) := by
      intro v0
      simp [ws_handler, ho, hall, hip]
    refine ⟨by rw [key v], by rw [key v]; rfl, by rw [key v],
      fun v' => by rw [key v', key v]⟩

/-- Witness for C7: a disallowed origin is rejected with 403, and a
request without `Origin` is not origin-rejected. -/
theorem origin_check_handshake_witness :
    (ws_handler noValidate "c1" sampleState sampleLimiter
        ⟨"1.2.3.4", some "https://evil.com", "tok".data, none⟩).1
      = WsResponse.originNotAllowed ∧
    (ws_handler noValidate "c1" sampleState sampleLimiter
        ⟨"1.2.3.4", none, [], none⟩).1 ≠ WsResponse.originNotAllowed := by
  have h2 := origin_check_handshake.2 noValidate "c1" sampleState sampleLimiter
      ⟨"1.2.3.4", some "https://evil.com", "tok".data, none⟩ "https://evil.com"
      rfl (by decide) (by decide)
  have h1 := origin_check_handshake.1 noValidate "c1" sampleState sampleLimiter
      ⟨"1.2.3.4", none, [], none⟩ rfl
  exact ⟨h2.1, h1⟩

/-- C10: when the configured allowed-origins list is empty the origin
check accepts every origin value, so no handshake is ever rejected for a
disallowed Origin under that configuration. -/
theorem empty_allowlist_allows_all_origins :
    ∀ (s : AppState) (origin : String), s.allowed_origins = [] →
      s.is_origin_allowed origin = true ∧
      (∀ (v : List Char → Option Claims) (cid : String) (rl : RateLimiter)
          (req : WsRequest), req.origin = some origin →
          (ws_handler v cid s rl req).1 ≠ .originNotAllowed) := by
  intro s origin hempty
  have hallow : s.is_origin_allowed origin = true := by
    simp [AppState.is_origin_allowed, hempty]
  refine ⟨hallow, ?_⟩
  intro v cid rl req ho
  exact ws_handler_not_origin_rejected v cid s rl req (by rw [ho]; exact hallow)

/-- Witness for C10 on a state with an empty allow-list. -/
theorem empty_allowlist_allows_all_origins_witness :
    AppState.is_origin_allowed ⟨[], [], 0, [], []⟩ "https://any-origin.com" = true := by
  exact (empty_allowlist_allows_all_origins ⟨[], [], 0, [], []⟩
    "https://any-origin.com" rfl).1

/-! ### Handshake rejection -/

/-- C2: whenever the handshake does not complete the upgrade (address
rate limit, disallowed origin, missing credential, invalid token, or
user rate limit), the application state is returned untouched — no
connection is registered and no room or channel is created — and the
response status is 429 for the rate-limit rejections and 403 for the
origin/missing-token/invalid-token rejections.  Registration happens
only on the upgrade path, after every check has passed. -/
theorem handshake_rejection_side_effect_free :
    ∀ (v : List Char → Option Claims) (cid : String) (s : AppState)
      (rl : RateLimiter) (req : WsRequest),
      ((ws_handler v cid s rl req).1.isUpgrade = false →
        (ws_handler v cid s rl req).2.1 = s) ∧
      (((ws_handler v cid s rl req).1 = .tooManyRequests ∨
        (ws_handler v cid s rl req).1 = .tooManyRequestsUser) →
        ((ws_handler v cid s rl req).1).status = 429) ∧
      (((ws_handler v cid s rl req).1 = .originNotAllowed ∨
        (ws_handler v cid s rl req).1 = .missingToken ∨
        (ws_handler v cid s rl req).1 = .invalidToken) →
        ((ws_handler v cid s rl req).1).status = 403) := by
  intro v cid s rl req
  refine ⟨?_, ?_, ?_⟩
  · simp only [ws_handler]
    split
    · intro _; rfl
    · split
      · intro _; rfl
      · split
        · intro _; rfl
        · split
          · intro _; rfl
          · split
            · intro _; rfl
            · intro h
              exact absurd h (by simp [WsResponse.isUpgrade])
  · rintro (h | h) <;> rw [h] <;> rfl
  · rintro (h | h | h) <;> rw [h] <;> rfl

/-- Witness for C2: a handshake with an empty protocol header is
rejected (missing token) and leaves the state untouched. -/
theorem handshake_rejection_side_effect_free_witness :
    (ws_handler noValidate "c1" sampleState sampleLimiter
        ⟨"1.2.3.4", none, [], none⟩).1.isUpgrade = false ∧
    (ws_handler noValidate "c1" sampleState sampleLimiter
        ⟨"1.2.3.4", none, [], none⟩).2.1 = sampleState ∧
    (ws_handler noValidate "c1" sampleState sampleLimiter
        ⟨"1.2.3.4", none, [], none⟩).1 = WsResponse.missingToken := by
  have h := handshake_rejection_side_effect_free noValidate "c1" sampleState
    sampleLimiter ⟨"1.2.3.4", none, [], none⟩
  exact ⟨by decide, h.1 (by decide), by decide⟩

/-! ### Message rate-limit denial in the duplex loop -/

/-- C5: an inbound text or binary frame denied by the connection-keyed
admission check is silently dropped: the step result is `next` with the
application state completely unchanged — the connection's sent counter
is not incremented and nothing is published to the room channel — only
the limiter carries the (unchanged-bucket) result of the failed check,
and the loop proceeds with the remaining events instead of terminating
the session. -/
theorem message_rate_limit_denial_drops :
    ∀ (sender : Nat) (cid : String) (s : AppState) (rl : RateLimiter)
      (msg : String) (data : List Nat) (es : List InEvent),
      (rl.check_message cid).1 = false →
        handle_socket_step sender cid s rl (.text msg)
            = .next s (rl.check_message cid).2 ∧
        handle_socket_step sender cid s rl (.binary data)
            = .next s (rl.check_message cid).2 ∧
        handle_socket_loop sender cid s rl (InEvent.text msg :: es)
            = handle_socket_loop sender cid s (rl.check_message cid).2 es ∧
        handle_socket_loop sender cid s rl (InEvent.binary data :: es)
            = handle_socket_loop sender cid s (rl.check_message cid).2 es := by
  intro sender cid s rl msg data es h
  have ht : handle_socket_step sender cid s rl (.text msg)
      = .next s (rl.check_message cid).2 := by
    simp [handle_socket_step, h]
  have hb : handle_socket_step sender cid s rl (.binary data)
      = .next s (rl.check_message cid).2 := by
    simp [handle_socket_step, h]
  refine ⟨ht, hb, ?_, ?_⟩
  · simp only [handle_socket_loop, ht]
  · simp only [handle_socket_loop, hb]

/-- Witness for C5: with the `"c1"` bucket exhausted, a text frame is
dropped, the state is unchanged and the loop continues to process the
following close frame. -/
theorem message_rate_limit_denial_drops_witness :
    handle_socket_step 0 "c1" sessionState exhaustedLimiter
        (InEvent.text "hello")
      = StepResult.next sessionState
          (RateLimiter.check_message exhaustedLimiter "c1").2 ∧
    handle_socket_loop 0 "c1" sessionState exhaustedLimiter
        [InEvent.text "hello", InEvent.close]
      = handle_socket_loop 0 "c1" sessionState
          (RateLimiter.check_message exhaustedLimiter "c1").2 [InEvent.close] := by
  have h := message_rate_limit_denial_drops 0 "c1" sessionState exhaustedLimiter
    "hello" [] [InEvent.close] (by decide)
  exact ⟨h.1, h.2.2.1⟩

/-! ### Session cleanup -/

theorem update_connection_lookup (s : AppState) (cid : String)
    (f : ConnectionInfo → ConnectionInfo) :
    lookupKey (s.update_connection cid f).connections cid
      = (lookupKey s.connections cid).map f := by
  unfold AppState.update_connection
  cases h : lookupKey s.connections cid with
  | some info => simp [h, lookupKey_setKey_same]
  | none => simp [h]

theorem unregister_connection_fst (s : AppState) (cid : String) :
    (s.unregister_connection cid).1 = lookupKey s.connections cid := by
  unfold AppState.unregister_connection
  cases h : lookupKey s.connections cid <;> simp [h]

theorem unregister_connection_lookup_none (s : AppState) (cid : String) :
    lookupKey (s.unregister_connection cid).2.connections cid = none := by
  unfold AppState.unregister_connection
  cases h : lookupKey s.connections cid with
  | some info => simp [h, lookupKey_removeKey_same]
  | none => simp [h]

theorem handle_socket_cleanup_post (sender : Nat) (cid room_id : String)
    (s : AppState) (rl : RateLimiter) :
    (handle_socket_cleanup sender cid room_id s rl).2.2.2
        = [ConnectionState.Closed] ∧
    lookupKey (handle_socket_cleanup sender cid room_id s rl).1.connections cid
        = none ∧
    lookupKey
        (handle_socket_cleanup sender cid room_id s rl).2.1.message_limiters cid
        = none ∧
    ((handle_socket_cleanup sender cid room_id s rl).2.2.1).map
        ConnectionInfo.state
      = ((handle_socket_cleanup sender cid room_id s rl).2.2.1).map
          (fun _ => ConnectionState.Closed) ∧
    ((handle_socket_cleanup sender cid room_id s rl).1.channelReceiverCount sender
        = 0 →
      lookupKey (handle_socket_cleanup sender cid room_id s rl).1.rooms room_id
        = none) := by
  set r := ((s.channelDropReceiver sender).update_connection cid
      (fun c => c.set_state ConnectionState.Closed)).unregister_connection cid
    with hrdef
  have hcl : handle_socket_cleanup sender cid room_id s rl
      = (if r.2.channelReceiverCount sender = 0
         then { r.2 with rooms := removeKey r.2.rooms room_id } else r.2,
         rl.remove_connection cid, r.1, [ConnectionState.Closed]) := by
    rw [hrdef]
    rfl
  rw [hcl]
  refine ⟨rfl, ?_, ?_, ?_, ?_⟩
  · show lookupKey (if r.2.channelReceiverCount sender = 0
        then { r.2 with rooms := removeKey r.2.rooms room_id }
        else r.2).connections cid = none
    have hconn : (if r.2.channelReceiverCount sender = 0
        then { r.2 with rooms := removeKey r.2.rooms room_id }
        else r.2).connections = r.2.connections := by
      split <;> rfl
    rw [hconn, hrdef]
    exact unregister_connection_lookup_none _ cid
  · show lookupKey (rl.remove_connection cid).message_limiters cid = none
    exact lookupKey_removeKey_same rl.message_limiters cid
  · show (r.1).map ConnectionInfo.state = (r.1).map (fun _ => ConnectionState.Closed)
    rw [hrdef, unregister_connection_fst, update_connection_lookup]
    cases lookupKey (s.channelDropReceiver sender).connections cid <;>
      simp [ConnectionInfo.set_state]
  · show (if r.2.channelReceiverCount sender = 0
        then { r.2 with rooms := removeKey r.2.rooms room_id }
        else r.2).channelReceiverCount sender = 0 →
      lookupKey (if r.2.channelReceiverCount sender = 0
        then { r.2 with rooms := removeKey r.2.rooms room_id }
        else r.2).rooms room_id = none
    intro h0
    have hch : (if r.2.channelReceiverCount sender = 0
        then { r.2 with rooms := removeKey r.2.rooms room_id }
        else r.2).channelReceiverCount sender
        = r.2.channelReceiverCount sender := by
      split <;> rfl
    rw [hch] at h0
    rw [if_pos h0]
    exact lookupKey_removeKey_same _ _

/-- C3 (amended: the connection is marked `Closed` directly — the code
never writes the intermediate `Closing` state): on every exit of the
duplex loop, whatever the cause (peer close frame, read error, end of
stream), the one cleanup block runs: the session's only `set_state`
write marks the connection `Closed`, the connection is removed from the
Connection Registry, its rate-limit bucket is removed, and the room is
removed from the Room Registry when its subscriber count has dropped to
zero. -/
theorem session_cleanup_on_every_exit :
    ∀ (sender : Nat) (cid room_id : String) (s : AppState)
      (rl : RateLimiter) (events : List InEvent),
      (handle_socket sender cid room_id s rl events).2.2.2
          = [ConnectionState.Closed] ∧
      lookupKey (handle_socket sender cid room_id s rl events).1.connections cid
          = none ∧
      lookupKey
          (handle_socket sender cid room_id s rl events).2.1.message_limiters cid
          = none ∧
      ((handle_socket sender cid room_id s rl events).2.2.1).map
          ConnectionInfo.state
        = ((handle_socket sender cid room_id s rl events).2.2.1).map
            (fun _ => ConnectionState.Closed) ∧
      ((handle_socket sender cid room_id s rl events).1.channelReceiverCount
          sender = 0 →
        lookupKey (handle_socket sender cid room_id s rl events).1.rooms room_id
          = none) := by
  intro sender cid room_id s rl events
  have hh : handle_socket sender cid room_id s rl events
      = handle_socket_cleanup sender cid room_id
          (handle_socket_loop sender cid (s.channelSubscribe sender).1 rl
            events).1
          (handle_socket_loop sender cid (s.channelSubscribe sender).1 rl
            events).2 := rfl
  rw [hh]
  exact handle_socket_cleanup_post sender cid room_id _ _

/-- Witness for C3 on a concrete session ending with a close frame: the
connection is gone from the registry, its message bucket is gone, the
removed metadata is marked `Closed`, and the now-subscriberless room is
removed. -/
theorem session_cleanup_on_every_exit_witness :
    lookupKey (handle_socket 0 "c1" "r" sessionState sampleLimiter
        [InEvent.close]).1.connections "c1" = none ∧
    lookupKey (handle_socket 0 "c1" "r" sessionState sampleLimiter
        [InEvent.close]).2.1.message_limiters "c1" = none ∧
    lookupKey (handle_socket 0 "c1" "r" sessionState sampleLimiter
        [InEvent.close]).1.rooms "r" = none ∧
    (handle_socket 0 "c1" "r" sessionState sampleLimiter
        [InEvent.close]).2.2.2 = [ConnectionState.Closed] := by
  have h := session_cleanup_on_every_exit 0 "c1" "r" sessionState sampleLimiter
    [InEvent.close]
  exact ⟨h.2.1, h.2.2.1, h.2.2.2.2 (by decide), h.1⟩

/-- Counterexample to C3 as stated: the claim demands that cleanup mark
the connection `Closing` and then `Closed`, but on this concrete session
the complete trace of `set_state` writes is `[Closed]` — the `Closing`
state is never written on any path (the enum variant is dead in the
service). -/
theorem session_cleanup_never_writes_closing :
    (handle_socket 0 "c1" "r" sessionState sampleLimiter
        [InEvent.close]).2.2.2 = [ConnectionState.Closed] ∧
    ConnectionState.Closing ∉
      (handle_socket 0 "c1" "r" sessionState sampleLimiter
        [InEvent.close]).2.2.2 := by
  decide

/-! ### Lagged subscriber and the forward task -/

/-- C6, evaluated at the failing input (`laggedChannel`: capacity 2,
three published values, subscriber still at position 0).  The channel
itself behaves as specified: only the subscriber's own oldest unread
value (`m1`) was discarded — a fresh read position 2 still receives `m3`
— the publisher is never blocked, and after the `Lagged` repositioning
to index 1 the values `m2`, `m3` remain deliverable.  But the service's
forward task, written `while let Ok(msg) = rx.recv().await`, treats the
`Err(Lagged)` as loop exit: from position 0 it terminates at once and
delivers nothing, instead of continuing with `m2`, `m3`. -/
theorem lagged_receiver_exits_forward_loop :
    laggedChannel.recv 0 = RecvResult.lagged 1 ∧
    laggedChannel.recv 2 = RecvResult.ok "m3" 3 ∧
    (laggedChannel.send "m4").2 = true ∧
    forward_loop laggedChannel (fun _ => true) 1 = ["m2", "m3"] ∧
    forward_loop laggedChannel (fun _ => true) 0 = [] := by
  refine ⟨by decide, by decide, by decide, ?_, ?_⟩
  · unfold forward_loop
    simp [BChannel.recv, laggedChannel, List.getD]
    unfold forward_loop
    simp [BChannel.recv, List.getD]
    unfold forward_loop
    simp [BChannel.recv]
  · unfold forward_loop
    simp [BChannel.recv, laggedChannel]

end UChat
